import Mathlib

/-!
Shallow embedding of the Devwatsee backend (src/app.py and src/admintest.py).

The two Flask services are request/response handlers over a SQL database;
each handler is embedded as a pure function from the request data and the
current database state to a response (HTTP status code plus body fields)
and the next database state.  JSON fields read with `data.get(k)` (which
yields `None` when absent) are modelled as `Option` values; fields read
with `data[k]` (required, a `KeyError` otherwise) are plain values.
-/

/-- Password hashing: `werkzeug.security.generate_password_hash` produces a
salted hash string; `check_password_hash` re-derives the digest from the
stored salt and compares.  The library is external to the repository, so it
is modelled abstractly by a salt/digest pair whose digest is a deterministic
combination of salt and password. -/
structure PwHash where
  salt : String
  digest : String
deriving Repr, DecidableEq

def hashCombine (salt pw : String) : String :=
  "pbkdf2:" ++ salt ++ "$" ++ String.mk (pw.data.map fun c => Char.ofNat (c.toNat + 1))

def generate_password_hash (salt pw : String) : PwHash :=
  ⟨salt, hashCombine salt pw⟩

def check_password_hash (h : PwHash) (pw : String) : Bool :=
  h.digest == hashCombine h.salt pw

/-- User row of src/app.py (lines 37-42): id primary key, unique username,
nullable name, unique email, password hash.  `name` and `email` are
`Option` because `update_profile` writes `data.get(...)` into them. -/
structure User where
  id : Nat
  username : String
  name : Option String
  email : Option String
  password : PwHash
deriving Repr, DecidableEq

/-- SavedVideo row of src/app.py (lines 54-57): the bookmark ledger.
`video_id` is `Option` because `/save` reads it with `request.json.get`. -/
structure SavedVideo where
  id : Nat
  user_id : Nat
  video_id : Option Nat
deriving Repr, DecidableEq

/-- Database state seen by src/app.py: the user table and the saved-video
ledger, each with its autoincrement counter for primary keys. -/
structure AppDB where
  users : List User
  nextUserId : Nat
  saved : List SavedVideo
  nextSavedId : Nat
deriving Repr, DecidableEq

/-- `User.query.get(i)`: look up a user row by primary key. -/
def getUser (st : AppDB) (i : Nat) : Option User :=
  st.users.find? (fun u => u.id == i)

/-- Replace the first element satisfying `p` by `x`, leaving the rest of the
list unchanged; models committing a mutation of the row returned by a
`first()` / `get()` query. -/
def setFirst (p : α → Bool) (x : α) : List α → List α
  | [] => []
  | a :: t => if p a then x :: t else a :: setFirst p x t

/-- Signup request body (src/app.py lines 80-92): `username`, `email` and
`password` are accessed as `data[...]` (required), `name` via `data.get`. -/
structure SignupReq where
  username : String
  name : Option String
  email : String
  password : String
deriving Repr, DecidableEq

/-- The duplicate check of `signup` (src/app.py lines 82-85): some existing
row matches on username or on email. -/
def hasConflict (st : AppDB) (req : SignupReq) : Bool :=
  st.users.any (fun u => u.username == req.username || u.email == some req.email)

/-- `signup` (src/app.py lines 78-97).  Returns 409 on a username/email
conflict; otherwise inserts a new user whose password field is the salted
hash of the request password and returns 200.  `salt` stands for the random
salt `generate_password_hash` draws internally. -/
def signup (st : AppDB) (req : SignupReq) (salt : String) : (Nat × Bool) × AppDB :=
  if hasConflict st req then
    ((409, false), st)
  else
    let user : User :=
      { id := st.nextUserId
        username := req.username
        name := req.name
        email := some req.email
        password := generate_password_hash salt req.password }
    ((200, true), { st with users := st.users ++ [user], nextUserId := st.nextUserId + 1 })

/-- A bearer token issued by src/app.py: `create_access_token(identity=user.id)`,
so the subject is the user's primary key. -/
structure Token where
  subject : Nat
deriving Repr, DecidableEq

/-- `login` (src/app.py lines 100-109): find the first user with the given
username; 401 if absent or the password hash check fails, otherwise 200
with a token whose subject is the user's id. -/
def login (st : AppDB) (username password : String) : Nat × Option Token :=
  match st.users.find? (fun u => u.username == username) with
  | none => (401, none)
  | some u =>
    if check_password_hash u.password password then
      (200, some ⟨u.id⟩)
    else
      (401, none)

/-- `update_profile` (src/app.py lines 139-148): the authenticated user's
`name` and `email` are overwritten with `data.get("name")` and
`data.get("email")`; nothing else changes.  The user row is the one whose
id is the token subject; a dangling subject would raise in Python
(`user` is `None`), modelled as a 500 with no state change. -/
def update_profile (uid : Nat) (name email : Option String) (st : AppDB) :
    (Nat × Bool) × AppDB :=
  match getUser st uid with
  | none => ((500, false), st)
  | some u =>
    let u' : User := { u with name := name, email := email }
    ((200, true), { st with users := setFirst (fun w => w.id == uid) u' st.users })

/-- `save_video` (src/app.py lines 167-180): if a ledger row for
(user, video) already exists, answer `saved: true` without touching the
database; otherwise insert one row and answer `saved: true`. -/
def save_video (uid : Nat) (vid : Option Nat) (st : AppDB) : (Nat × Bool) × AppDB :=
  if st.saved.any (fun s => s.user_id == uid && s.video_id == vid) then
    ((200, true), st)
  else
    ((200, true),
      { st with
        saved := st.saved ++ [⟨st.nextSavedId, uid, vid⟩]
        nextSavedId := st.nextSavedId + 1 })

/-- `unsave_video` (src/app.py lines 183-193): bulk-delete every ledger row
matching the pair, then answer `saved: false` with status 200. -/
def unsave_video (uid : Nat) (vid : Option Nat) (st : AppDB) : (Nat × Bool) × AppDB :=
  ((200, false),
    { st with saved := st.saved.filter (fun s => !(s.user_id == uid && s.video_id == vid)) })

/-- Number of ledger rows recorded for the pair (user, video). -/
def countPair (st : AppDB) (uid : Nat) (vid : Option Nat) : Nat :=
  (st.saved.filter (fun s => s.user_id == uid && s.video_id == vid)).length

/-- User row as declared in src/admintest.py (lines 31-34): only id,
username, email columns are mapped there. -/
structure AUser where
  id : Nat
  username : Option String
  email : Option String
deriving Repr, DecidableEq

/-- Video row (src/admintest.py lines 37-43 and src/app.py lines 45-51).
All text columns are nullable; `sect` embeds the `section` column (the
word is a Lean keyword). -/
structure Video where
  id : Nat
  title : Option String
  category : Option String
  sect : Option String
  video_url : Option String
  thumbnail_url : Option String
deriving Repr, DecidableEq

/-- Database state seen by src/admintest.py. -/
structure AdminDB where
  users : List AUser
  videos : List Video
  nextVideoId : Nat
deriving Repr, DecidableEq

/-- One data-store access performed by an admin handler; each handler below
also returns the list of accesses it makes, in program order, so that
"performs no read or write" is expressible. -/
inductive Access where
  | readUsers
  | readVideos
  | writeVideos
deriving Repr, DecidableEq

/-- `admin_login` (src/admintest.py lines 54-65): the request fields (read
with `data.get`, hence `Option`) are compared by plain `==` against the
configured `ADMIN_USERNAME` / `ADMIN_PASSWORD` environment values (also
`Option`, since `os.getenv` yields `None` when unset).  On match, a token
with literal subject "admin" is issued; otherwise 401. -/
def admin_login (adminUser adminPass reqUser reqPass : Option String) :
    Nat × Option String :=
  if reqUser == adminUser && reqPass == adminPass then
    (200, some "admin")
  else
    (401, none)

/-- `admin_users` (src/admintest.py lines 68-78): 403 before touching the
database unless the token subject is "admin"; otherwise list all users. -/
def admin_users (ident : String) (st : AdminDB) :
    (Nat × Option (List AUser)) × List Access :=
  if ident != "admin" then ((403, none), [])
  else ((200, some st.users), [Access.readUsers])

/-- `admin_videos` (src/admintest.py lines 81-97): 403 before touching the
database unless the token subject is "admin"; otherwise list all videos. -/
def admin_videos (ident : String) (st : AdminDB) :
    (Nat × Option (List Video)) × List Access :=
  if ident != "admin" then ((403, none), [])
  else ((200, some st.videos), [Access.readVideos])

/-- Python truthiness of an optional form field or uploaded file: absent
(`None`) and the empty value are falsy, anything else truthy. -/
def truthy : Option String → Bool
  | none => false
  | some s => s != ""

/-- Multipart request body of `add_video`: `request.form.get` /
`request.files.get` yield `None` for absent fields.  Files are modelled by
their content string. -/
structure AddVideoReq where
  title : Option String
  category : Option String
  sect : Option String
  video : Option String
  thumbnail : Option String
deriving Repr, DecidableEq

/-- `add_video` (src/admintest.py lines 100-139): 403 unless the subject is
"admin"; 400 when `not all([title, category, video, thumbnail])`, i.e. when
any of the four is absent or empty; otherwise upload both blobs to the
media host (`upVideo`, `upThumb` return the secure URLs) and commit one new
video row whose section is stored exactly as submitted. -/
def add_video (ident : String) (req : AddVideoReq) (upVideo upThumb : String → String)
    (st : AdminDB) : (Nat × Bool) × AdminDB × List Access :=
  if ident != "admin" then ((403, false), st, [])
  else if !(truthy req.title && truthy req.category && truthy req.video && truthy req.thumbnail) then
    ((400, false), st, [])
  else
    let v : Video :=
      { id := st.nextVideoId
        title := req.title
        category := req.category
        sect := req.sect
        video_url := some (upVideo (req.video.getD ""))
        thumbnail_url := some (upThumb (req.thumbnail.getD "")) }
    ((200, true),
      { st with videos := st.videos ++ [v], nextVideoId := st.nextVideoId + 1 },
      [Access.writeVideos])

/-- JSON body of `update_video`: each key may be absent (outer `none`), or
present with a string or JSON null value; `data.get(k, default)` falls back
to the default only when the key is absent. -/
structure UpdateVideoReq where
  title : Option (Option String)
  category : Option (Option String)
  sect : Option (Option String)
deriving Repr, DecidableEq

/-- `update_video` (src/admintest.py lines 142-159): 403 unless the subject
is "admin"; 404 when no video has the given id; otherwise overwrite title,
category and section with `data.get(k, current value)` and commit.  The
URL columns are never written. -/
def update_video (ident : String) (vid : Nat) (req : UpdateVideoReq) (st : AdminDB) :
    (Nat × Bool) × AdminDB × List Access :=
  if ident != "admin" then ((403, false), st, [])
  else
    match st.videos.find? (fun v => v.id == vid) with
    | none => ((404, false), st, [Access.readVideos])
    | some v =>
      let v' : Video :=
        { v with
          title := req.title.getD v.title
          category := req.category.getD v.category
          sect := req.sect.getD v.sect }
      ((200, true),
        { st with videos := setFirst (fun w => w.id == vid) v' st.videos },
        [Access.readVideos, Access.writeVideos])

/-! Helper lemmas about `find?`, `setFirst` and filtering. -/

theorem find?_split (p : α → Bool) (a : List α) (v : α) (b : List α)
    (ha : ∀ w ∈ a, p w = false) (hv : p v = true) :
    (a ++ v :: b).find? p = some v := by
  have hnone : a.find? p = none :=
    List.find?_eq_none.mpr (fun x hx => by simp [ha x hx])
  rw [List.find?_append, hnone]
  simp [List.find?_cons_of_pos _ hv]

theorem setFirst_split (p : α → Bool) (x : α) (a : List α) (v : α) (b : List α)
    (ha : ∀ w ∈ a, p w = false) (hv : p v = true) :
    setFirst p x (a ++ v :: b) = a ++ x :: b := by
  induction a with
  | nil => simp [setFirst, hv]
  | cons w t ih =>
      have hw : p w = false := ha w (by simp)
      simp only [List.cons_append, setFirst, hw, Bool.false_eq_true, if_false, List.cons.injEq,
        true_and]
      exact ih (fun y hy => ha y (by simp [hy]))

theorem truthy_eq_false_iff (o : Option String) :
    truthy o = false ↔ o = none ∨ o = some "" := by
  cases o <;> simp [truthy, bne_eq_false_iff_eq]

/-! Claim theorems. -/

/-- Claim C10: `admin_login` compares the request's username and password to
the configured admin credentials by plain equality, so in a configuration
where the admin username and password are both unset (`None`), a login
request omitting both fields compares `None` to `None` on each side and is
issued a token with subject "admin". -/
theorem admin_login_plain_equality :
    (∀ au ap ru rp : Option String,
      (admin_login au ap ru rp).1 = 200 ↔ ru = au ∧ rp = ap) ∧
    admin_login none none none none = (200, some "admin") := by
  refine ⟨fun au ap ru rp => ?_, rfl⟩
  by_cases h1 : ru = au <;> by_cases h2 : rp = ap <;>
    simp [admin_login, h1, h2]

/-- Witness for C10: concrete matching and mismatching credential pairs. -/
theorem admin_login_plain_equality_witness :
    (admin_login (some "root") (some "pw") (some "root") (some "pw")).1 = 200 ∧
    (admin_login (some "root") (some "pw") (some "root") (some "x")).1 ≠ 200 := by
  constructor
  · exact (admin_login_plain_equality.1 _ _ _ _).mpr ⟨rfl, rfl⟩
  · intro h
    exact absurd ((admin_login_plain_equality.1 _ _ _ _).mp h).2 (by decide)

/-- Claim C3: for every admin endpoint (list users, list videos, create
video, update video) and every valid token whose resolved subject is not
the literal string "admin", the endpoint answers 403 Forbidden, leaves the
database unchanged, and performs no data-store access at all. -/
theorem admin_endpoints_forbidden (ident : String) (st : AdminDB)
    (req : AddVideoReq) (ureq : UpdateVideoReq) (vid : Nat)
    (upV upT : String → String) (h : ident ≠ "admin") :
    admin_users ident st = ((403, none), []) ∧
    admin_videos ident st = ((403, none), []) ∧
    add_video ident req upV upT st = ((403, false), st, []) ∧
    update_video ident vid ureq st = ((403, false), st, []) := by
  have hb : (ident != "admin") = true := bne_iff_ne.mpr h
  refine ⟨?_, ?_, ?_, ?_⟩ <;>
    simp [admin_users, admin_videos, add_video, update_video, hb]

/-- Witness for C3: a token subject "7" (an ordinary user id) is rejected
by all four admin endpoints without touching the stores. -/
theorem admin_endpoints_forbidden_witness :
    admin_users "7" ⟨[], [], 0⟩ = ((403, none), []) ∧
    admin_videos "7" ⟨[], [], 0⟩ = ((403, none), []) ∧
    add_video "7" ⟨none, none, none, none, none⟩ id id ⟨[], [], 0⟩ =
      ((403, false), ⟨[], [], 0⟩, []) ∧
    update_video "7" 0 ⟨none, none, none⟩ ⟨[], [], 0⟩ =
      ((403, false), ⟨[], [], 0⟩, []) :=
  admin_endpoints_forbidden "7" ⟨[], [], 0⟩ ⟨none, none, none, none, none⟩
    ⟨none, none, none⟩ 0 id id (by decide)

/-- Claim C5: `unsave_video` deletes every ledger row matching the pair
(user, video) so that none remains, keeps every non-matching row, and
reports success (status 200, body `saved: false`) unconditionally. -/
theorem unsave_video_removes_all (uid : Nat) (vid : Option Nat) (st : AppDB) :
    (unsave_video uid vid st).1 = (200, false) ∧
    countPair (unsave_video uid vid st).2 uid vid = 0 ∧
    ∀ s ∈ st.saved, (s.user_id == uid && s.video_id == vid) = false →
      s ∈ (unsave_video uid vid st).2.saved := by
  refine ⟨rfl, ?_, ?_⟩
  · simp [countPair, unsave_video, List.filter_filter]
  · intro s hs hp
    simp only [unsave_video, List.mem_filter]
    exact ⟨hs, by simp [hp]⟩

/-- Witness for C5: with two duplicate rows for (1,2) and one row for (1,3),
unsaving (1,2) reports success, removes both duplicates and keeps (1,3). -/
theorem unsave_video_removes_all_witness :
    (unsave_video 1 (some 2)
      (⟨[], 0, [⟨0, 1, some 2⟩, ⟨1, 1, some 2⟩, ⟨2, 1, some 3⟩], 3⟩ : AppDB)).1 =
      (200, false) ∧
    countPair (unsave_video 1 (some 2)
      (⟨[], 0, [⟨0, 1, some 2⟩, ⟨1, 1, some 2⟩, ⟨2, 1, some 3⟩], 3⟩ : AppDB)).2 1 (some 2) = 0 ∧
    (⟨2, 1, some 3⟩ : SavedVideo) ∈ (unsave_video 1 (some 2)
      (⟨[], 0, [⟨0, 1, some 2⟩, ⟨1, 1, some 2⟩, ⟨2, 1, some 3⟩], 3⟩ : AppDB)).2.saved := by
  refine ⟨(unsave_video_removes_all 1 (some 2) _).1,
    (unsave_video_removes_all 1 (some 2) _).2.1, ?_⟩
  exact (unsave_video_removes_all 1 (some 2) _).2.2 ⟨2, 1, some 3⟩ (by decide) (by decide)

/-- The modelled digest is never the plaintext password: it is strictly
longer (scheme prefix, salt and separator precede the scrambled payload). -/
theorem hashCombine_ne (salt pw : String) : hashCombine salt pw ≠ pw := by
  intro h
  have hl := congrArg String.length h
  have h7 : ("pbkdf2:" : String).length = 7 := rfl
  have h1 : ("$" : String).length = 1 := rfl
  have hpw : pw.length = pw.data.length := rfl
  simp only [hashCombine, String.length_append, String.length_mk, List.length_map, h7, h1] at hl
  omega

/-- Claim C9: an authenticated profile update unconditionally replaces the
stored name and email with the request values (`data.get`, so an absent
field stores `None` rather than keeping the prior value), while the user's
username and password hash, every other user row, and the rest of the
database are left unchanged. -/
theorem update_profile_overwrites (uid : Nat) (name email : Option String)
    (a : List User) (u : User) (b : List User) (st : AppDB)
    (hst : st.users = a ++ u :: b)
    (ha : ∀ w ∈ a, w.id ≠ uid) (hu : u.id = uid) :
    (update_profile uid name email st).1 = (200, true) ∧
    (update_profile uid name email st).2.users =
      a ++ { u with name := name, email := email } :: b ∧
    ({ u with name := name, email := email } : User).username = u.username ∧
    ({ u with name := name, email := email } : User).password = u.password ∧
    (update_profile uid name email st).2.saved = st.saved := by
  have hfind : st.users.find? (fun w => w.id == uid) = some u := by
    rw [hst]
    exact find?_split _ a u b (fun w hw => by simp [ha w hw]) (by simp [hu])
  have hset : setFirst (fun w => w.id == uid)
      { u with name := name, email := email } st.users =
      a ++ { u with name := name, email := email } :: b := by
    rw [hst]
    exact setFirst_split _ _ a u b (fun w hw => by simp [ha w hw]) (by simp [hu])
  refine ⟨?_, ?_, rfl, rfl, ?_⟩ <;>
    simp [update_profile, getUser, hfind, hset]

/-- Witness for C9: user id 5 updates with an absent name and a new email;
the stored name becomes `None`, the email is replaced, the other user and
the username/password of user 5 survive. -/
theorem update_profile_overwrites_witness :
    (update_profile 5 none (some "n@x")
      (⟨[⟨1, "bob", none, none, ⟨"s", "d"⟩⟩,
         ⟨5, "alice", some "Al", some "a@x", ⟨"t", "e"⟩⟩], 6, [], 0⟩ : AppDB)).1 =
      (200, true) ∧
    (update_profile 5 none (some "n@x")
      (⟨[⟨1, "bob", none, none, ⟨"s", "d"⟩⟩,
         ⟨5, "alice", some "Al", some "a@x", ⟨"t", "e"⟩⟩], 6, [], 0⟩ : AppDB)).2.users =
      [⟨1, "bob", none, none, ⟨"s", "d"⟩⟩,
       ⟨5, "alice", none, some "n@x", ⟨"t", "e"⟩⟩] := by
  have h := update_profile_overwrites 5 none (some "n@x")
    [⟨1, "bob", none, none, ⟨"s", "d"⟩⟩]
    ⟨5, "alice", some "Al", some "a@x", ⟨"t", "e"⟩⟩ []
    (⟨[⟨1, "bob", none, none, ⟨"s", "d"⟩⟩,
       ⟨5, "alice", some "Al", some "a@x", ⟨"t", "e"⟩⟩], 6, [], 0⟩ : AppDB)
    rfl (by decide) rfl
  exact ⟨h.1, h.2.1⟩

/-- Claim C2: `signup` answers 409 Conflict exactly when some existing user
already has the requested username or email, whatever the other fields are;
otherwise it succeeds, appending a user row whose password field is the
salted hash of the request password, which carries the salt and is never
the plaintext. -/
theorem signup_conflict_characterization (st : AppDB) (req : SignupReq) (salt : String) :
    ((signup st req salt).1 = (409, false) ↔
      ∃ u ∈ st.users, u.username = req.username ∨ u.email = some req.email) ∧
    ((∀ u ∈ st.users, u.username ≠ req.username ∧ u.email ≠ some req.email) →
      (signup st req salt).1 = (200, true) ∧
      (signup st req salt).2.users =
        st.users ++ [⟨st.nextUserId, req.username, req.name, some req.email,
          generate_password_hash salt req.password⟩] ∧
      (generate_password_hash salt req.password).salt = salt ∧
      (generate_password_hash salt req.password).digest ≠ req.password) := by
  have hiff : hasConflict st req = true ↔
      ∃ u ∈ st.users, u.username = req.username ∨ u.email = some req.email := by
    simp [hasConflict, List.any_eq_true]
  constructor
  · constructor
    · intro h9
      by_cases h : hasConflict st req
      · exact hiff.mp h
      · simp [signup, h] at h9
    · intro hex
      simp [signup, hiff.mpr hex]
  · intro hall
    have hfalse : hasConflict st req = false := by
      rcases Bool.eq_false_or_eq_true (hasConflict st req) with h | h
      · rcases hiff.mp h with ⟨u, hu, h1 | h2⟩
        · exact absurd h1 (hall u hu).1
        · exact absurd h2 (hall u hu).2
      · exact h
    refine ⟨?_, ?_, rfl, hashCombine_ne salt req.password⟩ <;>
      simp [signup, hfalse, generate_password_hash]

/-- Witness for C2: a duplicate email yields 409 even with a fresh username;
a fresh pair succeeds and stores the salted hash. -/
theorem signup_conflict_characterization_witness :
    (signup (⟨[⟨0, "bob", none, some "a@x", ⟨"s", "d"⟩⟩], 1, [], 0⟩ : AppDB)
      ⟨"carol", none, "a@x", "pw"⟩ "s2").1 = (409, false) ∧
    (signup (⟨[], 0, [], 0⟩ : AppDB) ⟨"carol", none, "c@x", "pw"⟩ "s2").1 = (200, true) ∧
    (signup (⟨[], 0, [], 0⟩ : AppDB) ⟨"carol", none, "c@x", "pw"⟩ "s2").2.users =
      [⟨0, "carol", none, some "c@x", generate_password_hash "s2" "pw"⟩] ∧
    (generate_password_hash "s2" "pw").digest ≠ "pw" := by
  have h1 := (signup_conflict_characterization
    (⟨[⟨0, "bob", none, some "a@x", ⟨"s", "d"⟩⟩], 1, [], 0⟩ : AppDB)
    ⟨"carol", none, "a@x", "pw"⟩ "s2").1.mpr (by decide)
  have h2 := (signup_conflict_characterization (⟨[], 0, [], 0⟩ : AppDB)
    ⟨"carol", none, "c@x", "pw"⟩ "s2").2 (by decide)
  exact ⟨h1, h2.1, h2.2.1, h2.2.2.2⟩

/-- The duplicate check of `save_video` succeeds exactly when the ledger
holds at least one row for the pair. -/
theorem countPair_pos_iff (st : AppDB) (uid : Nat) (vid : Option Nat) :
    st.saved.any (fun s => s.user_id == uid && s.video_id == vid) = true ↔
    countPair st uid vid ≠ 0 := by
  unfold countPair
  rw [List.any_eq_true, Ne, List.length_eq_zero, List.filter_eq_nil_iff]
  constructor
  · rintro ⟨s, hs, hp⟩ hall
    exact hall s hs hp
  · intro h
    by_contra hc
    push_neg at hc
    exact h (fun a ha hp => hc a ha hp)

/-- Claim C1: after a signup whose username and email are distinct from all
existing users, logging in with the same username and password succeeds and
yields a token whose subject resolves (by primary-key lookup) back to the
newly created user's row. -/
theorem signup_then_login (st : AppDB) (req : SignupReq) (salt : String)
    (hfresh : ∀ u ∈ st.users, u.username ≠ req.username ∧ u.email ≠ some req.email)
    (hid : ∀ u ∈ st.users, u.id ≠ st.nextUserId) :
    (signup st req salt).1 = (200, true) ∧
    ∃ t : Token,
      login (signup st req salt).2 req.username req.password = (200, some t) ∧
      ∃ u : User, getUser (signup st req salt).2 t.subject = some u ∧
        u.id = t.subject ∧ u.username = req.username ∧
        u.password = generate_password_hash salt req.password := by
  have hfalse : hasConflict st req = false := by
    rw [hasConflict, List.any_eq_false]
    intro u hu
    simp [(hfresh u hu).1, (hfresh u hu).2]
  have husers : (signup st req salt).2.users = st.users ++
      [⟨st.nextUserId, req.username, req.name, some req.email,
        generate_password_hash salt req.password⟩] := by
    simp [signup, hfalse]
  have hfind : (signup st req salt).2.users.find?
      (fun u => u.username == req.username) =
      some ⟨st.nextUserId, req.username, req.name, some req.email,
        generate_password_hash salt req.password⟩ := by
    rw [husers]
    exact find?_split _ st.users _ [] (fun w hw => by simp [(hfresh w hw).1]) (by simp)
  have hcheck : check_password_hash (generate_password_hash salt req.password)
      req.password = true := by
    simp [check_password_hash, generate_password_hash]
  refine ⟨by simp [signup, hfalse], ⟨st.nextUserId⟩, ?_, ?_⟩
  · simp [login, hfind, hcheck]
  · refine ⟨⟨st.nextUserId, req.username, req.name, some req.email,
      generate_password_hash salt req.password⟩, ?_, rfl, rfl, rfl⟩
    rw [getUser, husers]
    exact find?_split _ st.users _ [] (fun w hw => by simp [hid w hw]) (by simp)

/-- Witness for C1: signing up "alice" into an empty store and logging in
with her credentials answers 200. -/
theorem signup_then_login_witness :
    (signup (⟨[], 0, [], 0⟩ : AppDB) ⟨"alice", some "A", "a@x", "p1"⟩ "s").1 = (200, true) ∧
    (login (signup (⟨[], 0, [], 0⟩ : AppDB) ⟨"alice", some "A", "a@x", "p1"⟩ "s").2
      "alice" "p1").1 = 200 := by
  obtain ⟨h1, t, ht, -⟩ := signup_then_login (⟨[], 0, [], 0⟩ : AppDB)
    ⟨"alice", some "A", "a@x", "p1"⟩ "s" (by decide) (by decide)
  exact ⟨h1, by rw [ht]⟩

/-- Claim C4 counterexample: from a state whose ledger already holds two
(accidentally duplicated) rows for the pair (1,2), calling save twice does
not leave exactly one row: both duplicates survive. -/
theorem save_video_twice_duplicates_remain :
    countPair (save_video 1 (some 2) (save_video 1 (some 2)
      (⟨[], 0, [⟨0, 1, some 2⟩, ⟨1, 1, some 2⟩], 2⟩ : AppDB)).2).2 1 (some 2) ≠ 1 ∧
    countPair (save_video 1 (some 2) (save_video 1 (some 2)
      (⟨[], 0, [⟨0, 1, some 2⟩, ⟨1, 1, some 2⟩], 2⟩ : AppDB)).2).2 1 (some 2) = 2 := by
  decide

/-- Both branches of `save_video` answer status 200 with body `saved: true`. -/
theorem save_video_status (uid : Nat) (vid : Option Nat) (st : AppDB) :
    (save_video uid vid st).1 = (200, true) := by
  unfold save_video
  split <;> rfl

/-- When the pair is already present, `save_video` leaves the state as is. -/
theorem save_video_of_mem (uid : Nat) (vid : Option Nat) (st : AppDB)
    (h : st.saved.any (fun s => s.user_id == uid && s.video_id == vid) = true) :
    (save_video uid vid st).2 = st := by
  simp [save_video, h]

/-- Claim C4 amended: both saves report success; when a row for the pair
already exists no new row is created (the state is untouched); and when at
most one row for the pair exists beforehand — in particular in any state
not already corrupted by duplicates — two successive saves leave exactly
one ledger row for the pair. -/
theorem save_video_idempotent (uid : Nat) (vid : Option Nat) (st : AppDB) :
    (save_video uid vid st).1 = (200, true) ∧
    (save_video uid vid (save_video uid vid st).2).1 = (200, true) ∧
    (countPair st uid vid ≠ 0 → (save_video uid vid st).2 = st) ∧
    (countPair st uid vid ≤ 1 →
      countPair (save_video uid vid (save_video uid vid st).2).2 uid vid = 1) := by
  by_cases hany : st.saved.any (fun s => s.user_id == uid && s.video_id == vid) = true
  · have hst1 : (save_video uid vid st).2 = st := by simp [save_video, hany]
    refine ⟨by simp [save_video, hany], ?_, fun _ => hst1, ?_⟩
    · rw [hst1]; simp [save_video, hany]
    · intro hle
      rw [hst1, hst1]
      have hpos := (countPair_pos_iff st uid vid).mp hany
      omega
  · have hfalse : st.saved.any (fun s => s.user_id == uid && s.video_id == vid) = false := by
      simpa using hany
    have h0 : countPair st uid vid = 0 := by
      by_contra hne
      exact hany ((countPair_pos_iff st uid vid).mpr hne)
    have hst1 : (save_video uid vid st).2 =
        { st with
          saved := st.saved ++ [⟨st.nextSavedId, uid, vid⟩]
          nextSavedId := st.nextSavedId + 1 } := by
      simp [save_video, hfalse]
    have hany2 : ((save_video uid vid st).2).saved.any
        (fun s => s.user_id == uid && s.video_id == vid) = true := by
      rw [hst1]
      exact List.any_eq_true.mpr ⟨⟨st.nextSavedId, uid, vid⟩, by simp, by simp⟩
    have h0' : (st.saved.filter (fun s => s.user_id == uid && s.video_id == vid)).length = 0 := h0
    refine ⟨save_video_status uid vid st,
      save_video_status uid vid (save_video uid vid st).2, ?_, ?_⟩
    · intro hne
      exact absurd hne (by simp [h0])
    · intro _
      rw [save_video_of_mem uid vid (save_video uid vid st).2 hany2, hst1]
      simp [countPair, List.filter_append, h0']

/-- Witness for C4 amended: with a single existing row for (1,2) the first
save leaves the state untouched, and two saves end with exactly one row. -/
theorem save_video_idempotent_witness :
    (save_video 1 (some 2) (⟨[], 0, [⟨0, 1, some 2⟩], 1⟩ : AppDB)).2 =
      (⟨[], 0, [⟨0, 1, some 2⟩], 1⟩ : AppDB) ∧
    countPair (save_video 1 (some 2) (save_video 1 (some 2)
      (⟨[], 0, [⟨0, 1, some 2⟩], 1⟩ : AppDB)).2).2 1 (some 2) = 1 :=
  ⟨(save_video_idempotent 1 (some 2) (⟨[], 0, [⟨0, 1, some 2⟩], 1⟩ : AppDB)).2.2.1
      (by decide),
   (save_video_idempotent 1 (some 2) (⟨[], 0, [⟨0, 1, some 2⟩], 1⟩ : AppDB)).2.2.2
      (by decide)⟩

/-- Claim C6: on an admin-authenticated update, `update_video` answers 404
NotFound and leaves every video unchanged when no video has the requested
id; otherwise it applies a partial update to the matching row: title,
category and section each take the supplied value when the request carries
the key and keep their prior value when it does not, while the row's
`video_url` and `thumbnail_url` and every other row are untouched. -/
theorem update_video_partial_update (vid : Nat) (req : UpdateVideoReq) (st : AdminDB) :
    (st.videos.find? (fun v => v.id == vid) = none →
      update_video "admin" vid req st = ((404, false), st, [Access.readVideos])) ∧
    (∀ a v b, st.videos = a ++ v :: b → (∀ w ∈ a, w.id ≠ vid) → v.id = vid →
      (update_video "admin" vid req st).1 = (200, true) ∧
      (update_video "admin" vid req st).2.1.videos =
        a ++ ({ v with
          title := req.title.getD v.title
          category := req.category.getD v.category
          sect := req.sect.getD v.sect } : Video) :: b ∧
      ({ v with
          title := req.title.getD v.title
          category := req.category.getD v.category
          sect := req.sect.getD v.sect } : Video).video_url = v.video_url ∧
      ({ v with
          title := req.title.getD v.title
          category := req.category.getD v.category
          sect := req.sect.getD v.sect } : Video).thumbnail_url = v.thumbnail_url) := by
  constructor
  · intro hn
    simp [update_video, hn]
  · intro a v b hst ha hv
    have hfind : st.videos.find? (fun w => w.id == vid) = some v := by
      rw [hst]
      exact find?_split _ a v b (fun w hw => by simp [ha w hw]) (by simp [hv])
    have hset : setFirst (fun w => w.id == vid)
        ({ v with
          title := req.title.getD v.title
          category := req.category.getD v.category
          sect := req.sect.getD v.sect } : Video) st.videos =
        a ++ ({ v with
          title := req.title.getD v.title
          category := req.category.getD v.category
          sect := req.sect.getD v.sect } : Video) :: b := by
      rw [hst]
      exact setFirst_split _ _ a v b (fun w hw => by simp [ha w hw]) (by simp [hv])
    refine ⟨?_, ?_, rfl, rfl⟩ <;> simp [update_video, hfind, hset]

/-- Witness for C6: an absent id answers 404 with the store untouched; a
title-only update changes only the title of the matching row. -/
theorem update_video_partial_update_witness :
    update_video "admin" 5 ⟨none, none, none⟩ (⟨[], [], 0⟩ : AdminDB) =
      ((404, false), (⟨[], [], 0⟩ : AdminDB), [Access.readVideos]) ∧
    (update_video "admin" 0 ⟨some (some "T2"), none, none⟩
      (⟨[], [⟨0, some "T", some "C", some "S", some "u", some "th"⟩], 1⟩ : AdminDB)).2.1.videos =
      [⟨0, some "T2", some "C", some "S", some "u", some "th"⟩] := by
  constructor
  · exact (update_video_partial_update 5 ⟨none, none, none⟩ (⟨[], [], 0⟩ : AdminDB)).1 rfl
  · exact ((update_video_partial_update 0 ⟨some (some "T2"), none, none⟩
      (⟨[], [⟨0, some "T", some "C", some "S", some "u", some "th"⟩], 1⟩ : AdminDB)).2
      [] ⟨0, some "T", some "C", some "S", some "u", some "th"⟩ [] rfl (by decide) rfl).2.1

/-- Claim C7 counterexample: a request whose four required fields are all
present, with an empty-string title, is still answered 400 BadRequest,
refuting the claim that 400 occurs only when a field is absent. -/
theorem add_video_badrequest_empty_title :
    (add_video "admin" ⟨some "", some "c", none, some "v", some "t"⟩ id id
      (⟨[], [], 0⟩ : AdminDB)).1 = (400, false) ∧
    (⟨some "", some "c", none, some "v", some "t"⟩ : AddVideoReq).title ≠ none ∧
    (⟨some "", some "c", none, some "v", some "t"⟩ : AddVideoReq).category ≠ none ∧
    (⟨some "", some "c", none, some "v", some "t"⟩ : AddVideoReq).video ≠ none ∧
    (⟨some "", some "c", none, some "v", some "t"⟩ : AddVideoReq).thumbnail ≠ none := by
  refine ⟨?_, by decide, by decide, by decide, by decide⟩
  rfl

/-- Claim C7 amended: on an admin-authenticated create, `add_video` answers
400 BadRequest exactly when title, category, the video blob, or the
thumbnail blob is absent or empty (Python falsiness), in which case no new
video row is stored; when the four required fields are non-empty it
succeeds, so a missing section alone never causes BadRequest. -/
theorem add_video_badrequest_iff (req : AddVideoReq) (upV upT : String → String)
    (st : AdminDB) :
    ((add_video "admin" req upV upT st).1 = (400, false) ↔
      (req.title = none ∨ req.title = some "" ∨
       req.category = none ∨ req.category = some "" ∨
       req.video = none ∨ req.video = some "" ∨
       req.thumbnail = none ∨ req.thumbnail = some "")) ∧
    ((add_video "admin" req upV upT st).1 = (400, false) →
      (add_video "admin" req upV upT st).2.1 = st) ∧
    (truthy req.title = true → truthy req.category = true → truthy req.video = true →
      truthy req.thumbnail = true →
      (add_video "admin" req upV upT st).1 = (200, true)) := by
  have key : (truthy req.title && truthy req.category && truthy req.video &&
      truthy req.thumbnail) = false ↔
      (req.title = none ∨ req.title = some "" ∨
       req.category = none ∨ req.category = some "" ∨
       req.video = none ∨ req.video = some "" ∨
       req.thumbnail = none ∨ req.thumbnail = some "") := by
    rw [Bool.and_eq_false_iff, Bool.and_eq_false_iff, Bool.and_eq_false_iff,
      truthy_eq_false_iff, truthy_eq_false_iff, truthy_eq_false_iff, truthy_eq_false_iff]
    tauto
  by_cases hc : (truthy req.title && truthy req.category && truthy req.video &&
      truthy req.thumbnail) = true
  · have h1 : (add_video "admin" req upV upT st).1 = (200, true) := by
      simp [add_video, hc]
    refine ⟨?_, ?_, fun _ _ _ _ => h1⟩
    · rw [h1]
      constructor
      · intro h
        exact absurd h (by decide)
      · intro hr
        have hf := key.mpr hr
        rw [hc] at hf
        exact absurd hf (by decide)
    · intro h
      rw [h1] at h
      exact absurd h (by decide)
  · have hcf : (truthy req.title && truthy req.category && truthy req.video &&
        truthy req.thumbnail) = false := by
      simpa using hc
    have h1 : (add_video "admin" req upV upT st).1 = (400, false) := by
      simp [add_video, hcf]
    have h2 : (add_video "admin" req upV upT st).2.1 = st := by
      simp [add_video, hcf]
    refine ⟨by rw [h1]; exact iff_of_true rfl (key.mp hcf), fun _ => h2, ?_⟩
    intro ht hcat hv hth
    rw [ht, hcat, hv, hth] at hcf
    exact absurd hcf (by decide)

/-- Witness for C7 amended: a complete request (with no section) succeeds;
a request missing its title is rejected without storing a row. -/
theorem add_video_badrequest_iff_witness :
    (add_video "admin" ⟨some "t", some "c", none, some "v", some "th"⟩ id id
      (⟨[], [], 0⟩ : AdminDB)).1 = (200, true) ∧
    (add_video "admin" ⟨none, some "c", none, some "v", some "th"⟩ id id
      (⟨[], [], 0⟩ : AdminDB)).2.1 = (⟨[], [], 0⟩ : AdminDB) := by
  constructor
  · exact (add_video_badrequest_iff ⟨some "t", some "c", none, some "v", some "th"⟩
      id id (⟨[], [], 0⟩ : AdminDB)).2.2 (by decide) (by decide) (by decide) (by decide)
  · exact (add_video_badrequest_iff ⟨none, some "c", none, some "v", some "th"⟩
      id id (⟨[], [], 0⟩ : AdminDB)).2.1 (by decide)

/-- Claim C8 counterexample: creating a video with the required fields but
no section stores a row whose section column is `None`, not "Latest": the
handler stores `request.form.get("section")` verbatim and no "Latest"
default exists anywhere in the code. -/
theorem add_video_section_not_latest :
    ((add_video "admin" ⟨some "t", some "c", none, some "v", some "th"⟩
      (fun s => s) (fun s => s) (⟨[], [], 0⟩ : AdminDB)).2.1.videos.map Video.sect) ≠
      [some "Latest"] ∧
    ((add_video "admin" ⟨some "t", some "c", none, some "v", some "th"⟩
      (fun s => s) (fun s => s) (⟨[], [], 0⟩ : AdminDB)).2.1.videos.map Video.sect) =
      [none] := by
  constructor
  · intro h
    rw [show ((add_video "admin" ⟨some "t", some "c", none, some "v", some "th"⟩
      (fun s => s) (fun s => s) (⟨[], [], 0⟩ : AdminDB)).2.1.videos.map Video.sect) =
      [none] from rfl] at h
    exact absurd h (by decide)
  · rfl

/-- Claim C8 amended: when a video is successfully created with no section
value, the stored row's section field is `None` (the submitted value,
stored verbatim), not the string "Latest". -/
theorem add_video_section_stored_verbatim (req : AddVideoReq)
    (upV upT : String → String) (st : AdminDB)
    (h200 : (add_video "admin" req upV upT st).1 = (200, true))
    (hs : req.sect = none) :
    (add_video "admin" req upV upT st).2.1.videos.map Video.sect =
      st.videos.map Video.sect ++ [none] := by
  by_cases hc : (truthy req.title && truthy req.category && truthy req.video &&
      truthy req.thumbnail) = true
  · simp [add_video, hc, hs]
  · have hcf : (truthy req.title && truthy req.category && truthy req.video &&
        truthy req.thumbnail) = false := by
      simpa using hc
    have h1 : (add_video "admin" req upV upT st).1 = (400, false) := by
      simp [add_video, hcf]
    rw [h1] at h200
    exact absurd h200 (by decide)

/-- Witness for C8 amended: a concrete creation without a section stores a
single row whose section is `None`. -/
theorem add_video_section_stored_verbatim_witness :
    (add_video "admin" ⟨some "t", some "c", none, some "v", some "th"⟩ id id
      (⟨[], [], 0⟩ : AdminDB)).2.1.videos.map Video.sect = [none] :=
  add_video_section_stored_verbatim ⟨some "t", some "c", none, some "v", some "th"⟩
    id id (⟨[], [], 0⟩ : AdminDB) (by decide) rfl
